import Mathlib

set_option autoImplicit false

/-!
Shallow embedding of the distortion core in Source/PluginProcessor.h.

Float and double arithmetic of the source is modelled over the real
numbers; std::tanh, std::atan and std::pow become Real.tanh, Real.arctan
and Real.rpow. Mutable structs become explicit state passing: a member
function that mutates its object is a function from the old state (plus
arguments) to the new state, and a function returning a sample while
mutating state returns a pair of the sample and the new state.
-/

namespace DistortionPlugin

/-- Mirrors struct DistortionParameters (PluginProcessor.h lines 16-21):
the user-facing gain, tone and volume controls. -/
structure DistortionParameters where
  gain : ℝ
  tone : ℝ
  volume : ℝ

/-- Mirrors struct AnalogParameters (lines 23-27): six coefficients of the
continuous-time transfer function H(s) = (A s^2 + B s + C)/(D s^2 + E s + F).
All fields are zero-initialized in the source. -/
structure AnalogParameters where
  A : ℝ
  B : ℝ
  C : ℝ
  D : ℝ
  E : ℝ
  F : ℝ

/-- The zero-initialized AnalogParameters, as produced by the member
initializers on lines 25-26. -/
def AnalogParameters.init : AnalogParameters :=
  { A := 0, B := 0, C := 0, D := 0, E := 0, F := 0 }

/-- Mirrors struct Biquad (lines 31-68): five coefficients and four history
cells, all zero-initialized (lines 62-65). -/
structure Biquad where
  b0 : ℝ
  b1 : ℝ
  b2 : ℝ
  a1 : ℝ
  a2 : ℝ
  x1 : ℝ
  x2 : ℝ
  y1 : ℝ
  y2 : ℝ

/-- The default-constructed Biquad: every field starts at zero. -/
def Biquad.init : Biquad :=
  { b0 := 0, b1 := 0, b2 := 0, a1 := 0, a2 := 0
    x1 := 0, x2 := 0, y1 := 0, y2 := 0 }

/-- Mirrors Biquad::processSample (lines 34-46): compute
y = x*b0 + x1*b1 + x2*b2 minus (y1*a1 + y2*a2), shift the history, and
return the output sample together with the updated filter state. -/
def Biquad.processSample (bq : Biquad) (x : ℝ) : ℝ × Biquad :=
  let y0 := x * bq.b0 + bq.x1 * bq.b1 + bq.x2 * bq.b2
  let y := y0 - (bq.y1 * bq.a1 + bq.y2 * bq.a2)
  (y, { bq with x2 := bq.x1, x1 := x, y2 := bq.y1, y1 := y })

/-- Mirrors Biquad::setCoefficients (lines 48-52): replace the five
coefficients, leaving the history untouched. -/
def Biquad.setCoefficients (bq : Biquad) (B0 B1 B2 A1 A2 : ℝ) : Biquad :=
  { bq with b0 := B0, b1 := B1, b2 := B2, a1 := A1, a2 := A2 }

/-- Mirrors Biquad::reset (lines 54-58): zero the four history cells,
leaving the coefficients untouched. -/
def Biquad.reset (bq : Biquad) : Biquad :=
  { bq with x1 := 0, x2 := 0, y1 := 0, y2 := 0 }

/-- The intermediate denominator normalizer a0 computed inside
calculateCoefficients (line 83): a0 = 4 D / T^2 + 2 E / T + F with
T = 1 / sampleRate. -/
noncomputable def calcA0 (p : AnalogParameters) (sampleRate : ℝ) : ℝ :=
  let T := 1 / sampleRate
  let Tsq := T * T
  4 * p.D / Tsq + 2 * p.E / T + p.F

/-- Mirrors calculateCoefficients (lines 70-95): bilinear-transform
synthesis of the discrete coefficients from AnalogParameters, each divided
by a0 and stored into the filter via setCoefficients. -/
noncomputable def calculateCoefficients (filter : Biquad) (p : AnalogParameters)
    (sampleRate : ℝ) : Biquad :=
  let T := 1 / sampleRate
  let Tsq := T * T
  let b0 := 4 * p.A / Tsq + 2 * p.B / T + p.C
  let b1 := 2 * p.C - 8 * p.A / Tsq
  let b2 := p.C + 4 * p.A / Tsq - 2 * p.B / T
  let a0 := 4 * p.D / Tsq + 2 * p.E / T + p.F
  let a1 := 2 * p.F - 8 * p.D / Tsq
  let a2 := p.F + 4 * p.D / Tsq - 2 * p.E / T
  filter.setCoefficients (b0 / a0) (b1 / a0) (b2 / a0) (a1 / a0) (a2 / a0)

/-- Mirrors the engine state of struct DistortionProcessor
(lines 164-174): the parameter snapshot, five biquads, five analog
parameter sets and the sample rate. The const members bjtGain, aDiode,
bDiode and pi are modelled as top-level constants below. -/
structure DistortionProcessor where
  params : DistortionParameters
  bjt : Biquad
  opamp : Biquad
  rc : Biquad
  toneLP : Biquad
  toneHP : Biquad
  bjtParams : AnalogParameters
  opampParams : AnalogParameters
  rcParams : AnalogParameters
  toneLpParams : AnalogParameters
  toneHpParams : AnalogParameters
  sampleRate : ℝ

/-- Mirrors the const member bjtGain = std::pow(10, 36/20) (line 169). -/
noncomputable def bjtGain : ℝ := (10 : ℝ) ^ ((36 : ℝ) / 20)

/-- Mirrors the const member aDiode = 0.405 (line 170). -/
def aDiode : ℝ := 0.405

/-- Mirrors the const member bDiode = 3.178 (line 171). -/
def bDiode : ℝ := 3.178

/-- Mirrors the const member pi = 3.14159265359 (line 172). -/
def piConst : ℝ := 3.14159265359

/-- A default-constructed engine carrying the given parameter snapshot:
all five biquads and all five analog parameter sets are zero-initialized.
The sampleRate member is uninitialized in the source (line 174) and is
only ever read after prepare has assigned it; it is modelled as 0 here. -/
def freshEngine (p : DistortionParameters) : DistortionProcessor :=
  { params := p
    bjt := Biquad.init, opamp := Biquad.init, rc := Biquad.init
    toneLP := Biquad.init, toneHP := Biquad.init
    bjtParams := AnalogParameters.init, opampParams := AnalogParameters.init
    rcParams := AnalogParameters.init, toneLpParams := AnalogParameters.init
    toneHpParams := AnalogParameters.init
    sampleRate := 0 }

namespace DistortionProcessor

/-- Mirrors DistortionProcessor::processBJT (lines 176-180): BJT biquad,
then the fixed linear gain bjtGain. -/
noncomputable def processBJT (s : DistortionProcessor) (x : ℝ) : ℝ × DistortionProcessor :=
  let r := s.bjt.processSample x
  (bjtGain * r.1, { s with bjt := r.2 })

/-- Mirrors DistortionProcessor::processOpAmp (lines 182-189): op-amp
biquad, then the asymmetric tanh soft clip with knees 4.55 (positive) and
4.4 (nonpositive). -/
noncomputable def processOpAmp (s : DistortionProcessor) (x : ℝ) :
    ℝ × DistortionProcessor :=
  let r := s.opamp.processSample x
  let y := if r.1 > 0 then 4.55 * Real.tanh (r.1 / 4.55)
           else 4.4 * Real.tanh (r.1 / 4.4)
  (y, { s with opamp := r.2 })

/-- Mirrors DistortionProcessor::processClipper (lines 191-198): arctangent
diode pre-shape aDiode * atan(x * bDiode), then the RC biquad. -/
noncomputable def processClipper (s : DistortionProcessor) (x : ℝ) :
    ℝ × DistortionProcessor :=
  let xClipped := aDiode * Real.arctan (x * bDiode)
  let r := s.rc.processSample xClipped
  (r.1, { s with rc := r.2 })

/-- Mirrors DistortionProcessor::processTone (lines 200-207): the sample
runs through the tone-low and tone-high biquads in parallel and the two
branch outputs are cross-faded by the tone parameter. -/
def processTone (s : DistortionProcessor) (x : ℝ) : ℝ × DistortionProcessor :=
  let rLP := s.toneLP.processSample x
  let rHP := s.toneHP.processSample x
  let y := (1 - s.params.tone) * rLP.1 + s.params.tone * rHP.1
  (y, { s with toneLP := rLP.2, toneHP := rHP.2 })

/-- Mirrors DistortionProcessor::processSample (lines 118-131): BJT stage,
op-amp stage, clipper stage, tone stage, then the volume scale. -/
noncomputable def processSample (s : DistortionProcessor) (x : ℝ) :
    ℝ × DistortionProcessor :=
  let r1 := s.processBJT x
  let r2 := r1.2.processOpAmp r1.1
  let r3 := r2.2.processClipper r2.1
  let r4 := r3.2.processTone r3.1
  (r4.1 * r4.2.params.volume, r4.2)

/-- One channel of DistortionProcessor::processBlock (lines 141-144): the
inner loop rewrites each sample in arrival order through processSample. -/
noncomputable def processChannel (s : DistortionProcessor) (data : List ℝ) :
    List ℝ × DistortionProcessor :=
  match data with
  | [] => ([], s)
  | x :: xs =>
      let r := s.processSample x
      let rest := r.2.processChannel xs
      (r.1 :: rest.1, rest.2)

/-- Mirrors DistortionProcessor::processBlock (lines 133-146): the outer
loop runs every channel of the block, in order, through the same engine. -/
noncomputable def processBlock (s : DistortionProcessor) (block : List (List ℝ)) :
    List (List ℝ) × DistortionProcessor :=
  match block with
  | [] => ([], s)
  | ch :: chs =>
      let r := s.processChannel ch
      let rest := r.2.processBlock chs
      (r.1 :: rest.1, rest.2)

end DistortionProcessor

/-- The AnalogParameters written for the BJT stage by updateConstFilters
(lines 211-219): unity numerator s^2 and denominator poles at the 3 Hz and
600 Hz corners. -/
def bjtTable : AnalogParameters :=
  let w1 := 2 * piConst * 3
  let w2 := 2 * piConst * 600
  { A := 1, B := 0, C := 0, D := 1, E := w1 + w2, F := w1 * w2 }

/-- The AnalogParameters written for the RC stage by updateConstFilters
(lines 223-230): only C, E and F are assigned; A, B and D keep whatever
they held before (always their zero initializers in the program). -/
def rcTable (old : AnalogParameters) : AnalogParameters :=
  let R := 2.2e3
  let C := 0.01e-6
  { old with C := 1, E := R * C, F := 1 }

/-- The AnalogParameters written for the tone low-pass branch by
updateConstFilters (lines 245-247): only C, E and F are assigned. -/
noncomputable def toneLpTable (old : AnalogParameters) : AnalogParameters :=
  let lpF := (320 : ℝ)
  { old with C := 1, E := 1 / (2 * piConst * lpF), F := 1 }

/-- The AnalogParameters written for the tone high-pass branch by
updateConstFilters (lines 249-251): only B, E and F are assigned; the
numerator gain is the resistive divider hpR2/(hpR1 + hpR2). -/
noncomputable def toneHpTable (old : AnalogParameters) : AnalogParameters :=
  let hpR1 := 2.2e3
  let hpR2 := 6.8e3
  let hpF := 1.16e3
  let hpGain := hpR2 / (hpR1 + hpR2)
  { old with B := hpGain, E := 1, F := 2 * piConst * hpF }

/-- The AnalogParameters computed by updateOpAmpFilter (lines 258-276)
from the distortion gain: two RC time constants from the gain-interpolated
resistances Rt and Rb combine into a two-pole, two-zero section. -/
noncomputable def opampTable (dist : ℝ) : AnalogParameters :=
  let Rt := dist * 100e3
  let Rb := (1 - dist) * 100e3 + 4.7e3
  let Cz := 1e-6
  let Cc := 250e-12
  let a := 1 / (Rt * Cc)
  let b := 1 / (Rb * Cz)
  let c := 1 / (Rb * Cc)
  { A := 1, B := a + b + c, C := a * b, D := 1, E := a + b, F := a * b }

/-- Mirrors juce::approximatelyEqual for single-precision floats, which the
source calls on line 108. The JUCE default tolerances are an absolute
tolerance of FLT_MIN = 2^(-126) and a relative tolerance of
FLT_EPSILON = 2^(-23) against the larger magnitude. -/
def approximatelyEqual (a b : ℝ) : Prop :=
  |a - b| ≤ 1 / 2 ^ 126 ∨ |a - b| ≤ (1 / 2 ^ 23) * max |a| |b|

namespace DistortionProcessor

/-- Mirrors DistortionProcessor::updateConstFilters (lines 209-256):
write the four fixed stage tables and synthesize the four corresponding
biquad coefficient sets at the current sample rate. -/
noncomputable def updateConstFilters (s : DistortionProcessor) : DistortionProcessor :=
  let bjtP := bjtTable
  let rcP := rcTable s.rcParams
  let lpP := toneLpTable s.toneLpParams
  let hpP := toneHpTable s.toneHpParams
  { s with
    bjtParams := bjtP, rcParams := rcP, toneLpParams := lpP, toneHpParams := hpP
    bjt := calculateCoefficients s.bjt bjtP s.sampleRate
    rc := calculateCoefficients s.rc rcP s.sampleRate
    toneLP := calculateCoefficients s.toneLP lpP s.sampleRate
    toneHP := calculateCoefficients s.toneHP hpP s.sampleRate }

/-- Mirrors DistortionProcessor::updateOpAmpFilter (lines 258-278):
recompute the op-amp AnalogParameters from the stored gain and synthesize
the op-amp biquad coefficients at the current sample rate. -/
noncomputable def updateOpAmpFilter (s : DistortionProcessor) : DistortionProcessor :=
  let p := opampTable s.params.gain
  { s with opampParams := p
           opamp := calculateCoefficients s.opamp p s.sampleRate }

/-- Mirrors DistortionProcessor::updateParameters (lines 106-116): when the
new gain is not approximately equal to the stored gain, store it and rerun
updateOpAmpFilter; then copy tone and volume unconditionally. -/
noncomputable def updateParameters (s : DistortionProcessor)
    (newParams : DistortionParameters) : DistortionProcessor :=
  open Classical in
  let s1 := if approximatelyEqual newParams.gain s.params.gain then s
            else updateOpAmpFilter
                   { s with params := { s.params with gain := newParams.gain } }
  { s1 with params := { s1.params with tone := newParams.tone
                                       volume := newParams.volume } }

/-- Mirrors DistortionProcessor::prepare (lines 149-161): store the sample
rate, reset all five biquads, then recompute the four fixed coefficient
sets and the op-amp coefficient set. -/
noncomputable def prepare (s : DistortionProcessor) (sampleRate_ : ℝ) :
    DistortionProcessor :=
  let s1 := { s with sampleRate := sampleRate_
                     bjt := s.bjt.reset, opamp := s.opamp.reset
                     rc := s.rc.reset, toneLP := s.toneLP.reset
                     toneHP := s.toneHP.reset }
  s1.updateConstFilters.updateOpAmpFilter

end DistortionProcessor

/-! ## Claim theorems -/

/-- C3: for every Biquad state and input x, processSample returns
y = b0*x + b1*x1 + b2*x2 - a1*y1 - a2*y2 and shifts the history to
x2 := x1, x1 := x, y2 := y1, y1 := y, leaving the five coefficients
unchanged. -/
theorem biquad_processSample_spec (bq : Biquad) (x : ℝ) :
    (bq.processSample x).1 =
      bq.b0 * x + bq.b1 * bq.x1 + bq.b2 * bq.x2 - bq.a1 * bq.y1 - bq.a2 * bq.y2 ∧
    (bq.processSample x).2.x2 = bq.x1 ∧
    (bq.processSample x).2.x1 = x ∧
    (bq.processSample x).2.y2 = bq.y1 ∧
    (bq.processSample x).2.y1 = (bq.processSample x).1 ∧
    (bq.processSample x).2.b0 = bq.b0 ∧
    (bq.processSample x).2.b1 = bq.b1 ∧
    (bq.processSample x).2.b2 = bq.b2 ∧
    (bq.processSample x).2.a1 = bq.a1 ∧
    (bq.processSample x).2.a2 = bq.a2 := by
  refine ⟨?_, rfl, rfl, rfl, rfl, rfl, rfl, rfl, rfl, rfl⟩
  simp only [Biquad.processSample]
  ring

/-- C2: calculateCoefficients computes, with T = 1/sampleRate and
Tsq = T*T, the bilinear-transform numerators b0, b1, b2 and denominators
a0, a1, a2 from {A,B,C,D,E,F}, divides b0, b1, b2, a1, a2 by a0, and
stores the normalized values as the coefficients of the Biquad. -/
theorem calculateCoefficients_spec (f : Biquad) (p : AnalogParameters)
    (sampleRate : ℝ) (_ha0 : calcA0 p sampleRate ≠ 0) :
    (calculateCoefficients f p sampleRate).b0 =
      (4 * p.A / (1 / sampleRate * (1 / sampleRate)) + 2 * p.B / (1 / sampleRate)
        + p.C) / calcA0 p sampleRate ∧
    (calculateCoefficients f p sampleRate).b1 =
      (2 * p.C - 8 * p.A / (1 / sampleRate * (1 / sampleRate))) / calcA0 p sampleRate ∧
    (calculateCoefficients f p sampleRate).b2 =
      (p.C + 4 * p.A / (1 / sampleRate * (1 / sampleRate))
        - 2 * p.B / (1 / sampleRate)) / calcA0 p sampleRate ∧
    (calculateCoefficients f p sampleRate).a1 =
      (2 * p.F - 8 * p.D / (1 / sampleRate * (1 / sampleRate))) / calcA0 p sampleRate ∧
    (calculateCoefficients f p sampleRate).a2 =
      (p.F + 4 * p.D / (1 / sampleRate * (1 / sampleRate))
        - 2 * p.E / (1 / sampleRate)) / calcA0 p sampleRate := by
  exact ⟨rfl, rfl, rfl, rfl, rfl⟩

/-- Witness for C2 at the concrete first-order table {C = 1, F = 1} and
sample rate 44100, where a0 = 1. -/
theorem calculateCoefficients_spec_witness :
    calcA0 ⟨0, 0, 1, 0, 0, 1⟩ 44100 ≠ 0 ∧
    (calculateCoefficients Biquad.init ⟨0, 0, 1, 0, 0, 1⟩ 44100).a1 =
      (2 * (1 : ℝ) - 8 * 0 / (1 / 44100 * (1 / 44100))) /
        calcA0 ⟨0, 0, 1, 0, 0, 1⟩ 44100 := by
  have ha0 : calcA0 (⟨0, 0, 1, 0, 0, 1⟩ : AnalogParameters) 44100 ≠ 0 := by
    norm_num [calcA0]
  exact ⟨ha0, (calculateCoefficients_spec Biquad.init ⟨0, 0, 1, 0, 0, 1⟩ 44100 ha0).2.2.2.1⟩

/-- The intermediate a0 of calculateCoefficients equals the polynomial
4 D sr^2 + 2 E sr + F. -/
theorem calcA0_eq (p : AnalogParameters) (sr : ℝ) :
    calcA0 p sr = 4 * p.D * sr ^ 2 + 2 * p.E * sr + p.F := by
  simp only [calcA0, one_div]
  rw [← mul_inv]
  simp only [div_eq_mul_inv, inv_inv]
  ring

/-- C8: for every positive sample rate, the denominator normalizer a0 of
calculateCoefficients is nonzero on each of the four fixed stage tables
written by updateConstFilters; the partially-written RC and tone tables
are taken at their program-invariant D = 0. -/
theorem fixed_tables_a0_nonzero (sampleRate : ℝ) (o1 o2 o3 : AnalogParameters)
    (hsr : 0 < sampleRate) (h1 : o1.D = 0) (h2 : o2.D = 0) (h3 : o3.D = 0) :
    calcA0 bjtTable sampleRate ≠ 0 ∧
    calcA0 (rcTable o1) sampleRate ≠ 0 ∧
    calcA0 (toneLpTable o2) sampleRate ≠ 0 ∧
    calcA0 (toneHpTable o3) sampleRate ≠ 0 := by
  refine ⟨ne_of_gt ?_, ne_of_gt ?_, ne_of_gt ?_, ne_of_gt ?_⟩
  · rw [calcA0_eq]
    simp only [bjtTable]
    norm_num [piConst]
    nlinarith [sq_nonneg sampleRate, hsr]
  · rw [calcA0_eq]
    simp only [rcTable, h1]
    norm_num
    nlinarith [hsr]
  · rw [calcA0_eq]
    simp only [toneLpTable, h2]
    norm_num [piConst]
    nlinarith [hsr]
  · rw [calcA0_eq]
    simp only [toneHpTable, h3]
    norm_num [piConst]
    nlinarith [hsr]

/-- Witness for C8 at sample rate 44100 with the zero-initialized scratch
tables of a fresh engine. -/
theorem fixed_tables_a0_nonzero_witness :
    (0 : ℝ) < 44100 ∧ AnalogParameters.init.D = 0 ∧
    calcA0 bjtTable 44100 ≠ 0 ∧
    calcA0 (rcTable AnalogParameters.init) 44100 ≠ 0 ∧
    calcA0 (toneLpTable AnalogParameters.init) 44100 ≠ 0 ∧
    calcA0 (toneHpTable AnalogParameters.init) 44100 ≠ 0 := by
  have h := fixed_tables_a0_nonzero 44100 AnalogParameters.init AnalogParameters.init
    AnalogParameters.init (by norm_num) rfl rfl rfl
  exact ⟨by norm_num, rfl, h.1, h.2.1, h.2.2.1, h.2.2.2⟩

/-- C1: processSample is the strictly ordered composition: BJT biquad then
the fixed gain 10^(36/20); op-amp biquad then the asymmetric soft clip
(knee 4.55 for positive, 4.4 otherwise); diode pre-shape
0.405*atan(3.178*x) then the RC biquad; tone-low and tone-high biquads in
parallel cross-faded by tone; and finally the volume scale. -/
theorem processSample_pipeline (s : DistortionProcessor) (x : ℝ) :
    (s.processSample x).1 =
      (let v1 := (10 : ℝ) ^ ((36 : ℝ) / 20) * (s.bjt.processSample x).1
       let y2 := (s.opamp.processSample v1).1
       let v2 := if y2 > 0 then 4.55 * Real.tanh (y2 / 4.55)
                 else 4.4 * Real.tanh (y2 / 4.4)
       let v3 := (s.rc.processSample (0.405 * Real.arctan (3.178 * v2))).1
       let v4 := (1 - s.params.tone) * (s.toneLP.processSample v3).1
                 + s.params.tone * (s.toneHP.processSample v3).1
       v4 * s.params.volume) := by
  simp only [DistortionProcessor.processSample, DistortionProcessor.processBJT,
    DistortionProcessor.processOpAmp, DistortionProcessor.processClipper,
    DistortionProcessor.processTone, bjtGain, aDiode, bDiode]
  rw [mul_comm (3.178 : ℝ)]

/-- C6: the tone stage output is (1 - tone) * lowpassOut + tone *
highpassOut of the two parallel branches run on the same input; at tone = 0
it equals the low-pass branch output exactly, and at tone = 1 the
high-pass branch output exactly. -/
theorem processTone_blend (s : DistortionProcessor) (x : ℝ) :
    (s.processTone x).1 =
      (1 - s.params.tone) * (s.toneLP.processSample x).1
        + s.params.tone * (s.toneHP.processSample x).1 ∧
    (s.params.tone = 0 → (s.processTone x).1 = (s.toneLP.processSample x).1) ∧
    (s.params.tone = 1 → (s.processTone x).1 = (s.toneHP.processSample x).1) := by
  refine ⟨rfl, ?_, ?_⟩ <;> intro h <;>
    simp [DistortionProcessor.processTone, h]

/-- Witness for C6: on a fresh engine with tone = 0, the tone stage output
at input 1 is the low-pass branch output. -/
theorem processTone_blend_witness :
    ((freshEngine ⟨0.5, 0, 0.5⟩).processTone 1).1 =
      ((freshEngine ⟨0.5, 0, 0.5⟩).toneLP.processSample 1).1 :=
  (processTone_blend (freshEngine ⟨0.5, 0, 0.5⟩) 1).2.1 rfl

/-- C4: updateParameters copies tone and volume unconditionally; when the
new gain is not approximately equal to the stored gain, the stored gain
becomes the new gain and the op-amp biquad is recomputed while the BJT,
RC, tone-low and tone-high biquads are unchanged; when the gains are
approximately equal, no biquad changes and the stored gain is kept. -/
theorem updateParameters_effect (s : DistortionProcessor) (np : DistortionParameters) :
    (s.updateParameters np).params.tone = np.tone ∧
    (s.updateParameters np).params.volume = np.volume ∧
    (¬ approximatelyEqual np.gain s.params.gain →
      (s.updateParameters np).params.gain = np.gain ∧
      (s.updateParameters np).opamp =
        calculateCoefficients s.opamp (opampTable np.gain) s.sampleRate ∧
      (s.updateParameters np).bjt = s.bjt ∧
      (s.updateParameters np).rc = s.rc ∧
      (s.updateParameters np).toneLP = s.toneLP ∧
      (s.updateParameters np).toneHP = s.toneHP) ∧
    (approximatelyEqual np.gain s.params.gain →
      (s.updateParameters np).params.gain = s.params.gain ∧
      (s.updateParameters np).bjt = s.bjt ∧
      (s.updateParameters np).opamp = s.opamp ∧
      (s.updateParameters np).rc = s.rc ∧
      (s.updateParameters np).toneLP = s.toneLP ∧
      (s.updateParameters np).toneHP = s.toneHP) := by
  by_cases h : approximatelyEqual np.gain s.params.gain <;>
    simp [DistortionProcessor.updateParameters,
      DistortionProcessor.updateOpAmpFilter, h]

/-- Witness for C4: a fresh engine with stored gain 0.5 updated with gain
0.7 (not approximately equal) has its gain replaced and its op-amp biquad
recomputed. -/
theorem updateParameters_effect_witness :
    ¬ approximatelyEqual (0.7 : ℝ) (0.5 : ℝ) ∧
    ((freshEngine ⟨0.5, 0.5, 0.5⟩).updateParameters ⟨0.7, 0.3, 0.9⟩).params.gain = 0.7 ∧
    ((freshEngine ⟨0.5, 0.5, 0.5⟩).updateParameters ⟨0.7, 0.3, 0.9⟩).opamp =
      calculateCoefficients (freshEngine ⟨0.5, 0.5, 0.5⟩).opamp (opampTable 0.7)
        (freshEngine ⟨0.5, 0.5, 0.5⟩).sampleRate := by
  have habs : |(0.7 : ℝ) - 0.5| = 0.2 := by
    rw [show (0.7 : ℝ) - 0.5 = 0.2 by norm_num]
    exact abs_of_pos (by norm_num)
  have hm : max |(0.7 : ℝ)| |(0.5 : ℝ)| = 0.7 := by
    rw [abs_of_pos (show (0 : ℝ) < 0.7 by norm_num),
      abs_of_pos (show (0 : ℝ) < 0.5 by norm_num)]
    exact max_eq_left (by norm_num)
  have h : ¬ approximatelyEqual (0.7 : ℝ) (0.5 : ℝ) := by
    simp only [approximatelyEqual, habs, hm, not_or, not_le]
    constructor <;> norm_num
  have h2 := (updateParameters_effect (freshEngine ⟨0.5, 0.5, 0.5⟩) ⟨0.7, 0.3, 0.9⟩).2.2.1 h
  exact ⟨h, h2.1, h2.2.1⟩

/-- C10: updateParameters never touches any history cell of any of the
five biquads: the four constant-stage biquads are unchanged wholly, and
the op-amp biquad keeps its live history even when its coefficients are
replaced. -/
theorem updateParameters_preserves_histories (s : DistortionProcessor)
    (np : DistortionParameters) :
    (s.updateParameters np).bjt = s.bjt ∧
    (s.updateParameters np).rc = s.rc ∧
    (s.updateParameters np).toneLP = s.toneLP ∧
    (s.updateParameters np).toneHP = s.toneHP ∧
    (s.updateParameters np).opamp.x1 = s.opamp.x1 ∧
    (s.updateParameters np).opamp.x2 = s.opamp.x2 ∧
    (s.updateParameters np).opamp.y1 = s.opamp.y1 ∧
    (s.updateParameters np).opamp.y2 = s.opamp.y2 := by
  by_cases h : approximatelyEqual np.gain s.params.gain <;>
    simp [DistortionProcessor.updateParameters,
      DistortionProcessor.updateOpAmpFilter, calculateCoefficients,
      Biquad.setCoefficients, h]

/-- The stored feedback coefficients a1 and a2 of a synthesized biquad,
written as rational functions of the sample rate. -/
theorem calculateCoefficients_a_coeffs (f : Biquad) (p : AnalogParameters) (sr : ℝ) :
    (calculateCoefficients f p sr).a1 =
      (2 * p.F - 8 * p.D * sr ^ 2) / (4 * p.D * sr ^ 2 + 2 * p.E * sr + p.F) ∧
    (calculateCoefficients f p sr).a2 =
      (p.F + 4 * p.D * sr ^ 2 - 2 * p.E * sr) / (4 * p.D * sr ^ 2 + 2 * p.E * sr + p.F) := by
  constructor <;>
  · simp only [calculateCoefficients, Biquad.setCoefficients]
    ring_nf
    simp only [inv_inv]

/-- Discrete stability of a synthesized biquad whose analog denominator
has D = 1, E > 0 and F > 0, at any positive sample rate: the stored
feedback coefficients satisfy the strict Jury conditions. -/
theorem stable_of_pos_denominator (f : Biquad) (p : AnalogParameters) (sr : ℝ)
    (hsr : 0 < sr) (hD : p.D = 1) (hE : 0 < p.E) (hF : 0 < p.F) :
    |(calculateCoefficients f p sr).a2| < 1 ∧
    |(calculateCoefficients f p sr).a1| < 1 + (calculateCoefficients f p sr).a2 := by
  obtain ⟨ha1, ha2⟩ := calculateCoefficients_a_coeffs f p sr
  rw [ha1, ha2, hD]
  have hsq : 0 < sr ^ 2 := by positivity
  have hd : 0 < 4 * 1 * sr ^ 2 + 2 * p.E * sr + p.F := by
    nlinarith [mul_pos hE hsr]
  constructor
  · rw [abs_div, abs_of_pos hd, div_lt_one hd, abs_lt]
    constructor <;> nlinarith [mul_pos hE hsr]
  · have hone : 1 + (p.F + 4 * 1 * sr ^ 2 - 2 * p.E * sr) /
        (4 * 1 * sr ^ 2 + 2 * p.E * sr + p.F) =
        ((4 * 1 * sr ^ 2 + 2 * p.E * sr + p.F) +
          (p.F + 4 * 1 * sr ^ 2 - 2 * p.E * sr)) /
        (4 * 1 * sr ^ 2 + 2 * p.E * sr + p.F) := by
      rw [add_div, div_self (ne_of_gt hd)]
    rw [hone, abs_div, abs_of_pos hd, div_lt_div_iff_of_pos_right hd, abs_lt]
    constructor <;> nlinarith [mul_pos hE hsr]

/-- C5 (amended to strictly positive gain): for every gain in (0,1] and
every positive sample rate, the op-amp stage coefficients synthesized by
updateOpAmpFilter and calculateCoefficients satisfy |a2| < 1 and
|a1| < 1 + a2, so both poles of z^2 + a1 z + a2 lie strictly inside the
unit circle. -/
theorem opamp_stable (dist sr : ℝ) (f : Biquad)
    (h0 : 0 < dist) (h1 : dist ≤ 1) (hsr : 0 < sr) :
    |(calculateCoefficients f (opampTable dist) sr).a2| < 1 ∧
    |(calculateCoefficients f (opampTable dist) sr).a1| <
      1 + (calculateCoefficients f (opampTable dist) sr).a2 := by
  have hb0 : (0 : ℝ) < (1 - dist) * 100e3 + 4.7e3 := by nlinarith
  have hb : (0 : ℝ) < 1 / (((1 - dist) * 100e3 + 4.7e3) * 1e-6) :=
    one_div_pos.mpr (mul_pos hb0 (by norm_num))
  have ha : (0 : ℝ) < 1 / (dist * 100e3 * 250e-12) := by positivity
  refine stable_of_pos_denominator f (opampTable dist) sr hsr rfl ?_ ?_
  · simp only [opampTable]
    exact add_pos ha hb
  · simp only [opampTable]
    exact mul_pos ha hb

/-- Witness for C5 at gain 0.5 and sample rate 44100. -/
theorem opamp_stable_witness :
    (0 : ℝ) < 0.5 ∧ (0.5 : ℝ) ≤ 1 ∧ (0 : ℝ) < 44100 ∧
    (|(calculateCoefficients Biquad.init (opampTable 0.5) 44100).a2| < 1 ∧
     |(calculateCoefficients Biquad.init (opampTable 0.5) 44100).a1| <
       1 + (calculateCoefficients Biquad.init (opampTable 0.5) 44100).a2) :=
  ⟨by norm_num, by norm_num, by norm_num,
    opamp_stable 0.5 44100 Biquad.init (by norm_num) (by norm_num) (by norm_num)⟩

/-- Counterexample to C5 as stated: at gain = 0 (an element of [0,1]) and
sample rate 44100 the synthesized op-amp coefficients are not strictly
stable. At gain 0 the time constant Rt*Cc is zero, so the reciprocal
coefficient a degenerates (in C++ float arithmetic the division yields
infinity and the coefficients are not finite; in this real-arithmetic
embedding, where division by zero yields zero, F collapses to 0 and a pole
lands exactly on the unit circle): |a1| = 1 + a2 and the strict Jury
condition fails. -/
theorem opamp_stable_counterexample :
    ¬ (|(calculateCoefficients Biquad.init (opampTable 0) 44100).a2| < 1 ∧
       |(calculateCoefficients Biquad.init (opampTable 0) 44100).a1| <
         1 + (calculateCoefficients Biquad.init (opampTable 0) 44100).a2) := by
  intro h
  obtain ⟨ha1, ha2⟩ := calculateCoefficients_a_coeffs Biquad.init (opampTable 0) 44100
  rw [ha1, ha2] at h
  have key : (2 * (opampTable 0).F - 8 * (opampTable 0).D * (44100 : ℝ) ^ 2) /
      (4 * (opampTable 0).D * (44100 : ℝ) ^ 2 + 2 * (opampTable 0).E * 44100 +
        (opampTable 0).F) =
      -(1 + ((opampTable 0).F + 4 * (opampTable 0).D * (44100 : ℝ) ^ 2 -
          2 * (opampTable 0).E * 44100) /
        (4 * (opampTable 0).D * (44100 : ℝ) ^ 2 + 2 * (opampTable 0).E * 44100 +
          (opampTable 0).F)) := by
    simp only [opampTable]
    norm_num
  rw [key, abs_neg] at h
  exact absurd h.2 (not_lt.mpr (le_abs_self _))

/-! ## Zero-history invariant and silence propagation -/

/-- All four history cells of a biquad are zero. -/
def Biquad.zeroHist (bq : Biquad) : Prop :=
  bq.x1 = 0 ∧ bq.x2 = 0 ∧ bq.y1 = 0 ∧ bq.y2 = 0

/-- All five biquads of the engine have zero history. -/
def DistortionProcessor.zeroHist (s : DistortionProcessor) : Prop :=
  s.bjt.zeroHist ∧ s.opamp.zeroHist ∧ s.rc.zeroHist ∧
    s.toneLP.zeroHist ∧ s.toneHP.zeroHist

/-- A biquad with zero history maps a zero sample to a zero output and
keeps its history zero. -/
theorem Biquad.processSample_zeroHist (bq : Biquad) (h1 : bq.x1 = 0) (h2 : bq.x2 = 0)
    (h3 : bq.y1 = 0) (h4 : bq.y2 = 0) :
    (bq.processSample 0).1 = 0 ∧ (bq.processSample 0).2.x1 = 0 ∧
    (bq.processSample 0).2.x2 = 0 ∧ (bq.processSample 0).2.y1 = 0 ∧
    (bq.processSample 0).2.y2 = 0 := by
  simp [Biquad.processSample, h1, h2, h3, h4]

/-- An engine with zero filter history maps a zero sample to a zero output
and keeps every history cell zero: no stage introduces a bias at zero. -/
theorem DistortionProcessor.processSample_zero {s : DistortionProcessor}
    (h : s.zeroHist) :
    (s.processSample 0).1 = 0 ∧ (s.processSample 0).2.zeroHist := by
  obtain ⟨hb, ho, hr, hl, ht⟩ := h
  obtain ⟨vb, pb1, pb2, pb3, pb4⟩ :=
    s.bjt.processSample_zeroHist hb.1 hb.2.1 hb.2.2.1 hb.2.2.2
  obtain ⟨vo, po1, po2, po3, po4⟩ :=
    s.opamp.processSample_zeroHist ho.1 ho.2.1 ho.2.2.1 ho.2.2.2
  obtain ⟨vr, pr1, pr2, pr3, pr4⟩ :=
    s.rc.processSample_zeroHist hr.1 hr.2.1 hr.2.2.1 hr.2.2.2
  obtain ⟨vl, pl1, pl2, pl3, pl4⟩ :=
    s.toneLP.processSample_zeroHist hl.1 hl.2.1 hl.2.2.1 hl.2.2.2
  obtain ⟨vt, pt1, pt2, pt3, pt4⟩ :=
    s.toneHP.processSample_zeroHist ht.1 ht.2.1 ht.2.2.1 ht.2.2.2
  constructor <;>
    simp [DistortionProcessor.processSample, DistortionProcessor.processBJT,
      DistortionProcessor.processOpAmp, DistortionProcessor.processClipper,
      DistortionProcessor.processTone, DistortionProcessor.zeroHist,
      Biquad.zeroHist, vb, pb1, pb2, pb3, pb4, vo, po1, po2, po3, po4,
      vr, pr1, pr2, pr3, pr4, vl, pl1, pl2, pl3, pl4, vt, pt1, pt2, pt3, pt4,
      Real.tanh_zero, Real.arctan_zero]

/-- prepare leaves every history cell of every biquad at zero. -/
theorem DistortionProcessor.prepare_zeroHist (s : DistortionProcessor) (r : ℝ) :
    (s.prepare r).zeroHist :=
  ⟨⟨rfl, rfl, rfl, rfl⟩, ⟨rfl, rfl, rfl, rfl⟩, ⟨rfl, rfl, rfl, rfl⟩,
    ⟨rfl, rfl, rfl, rfl⟩, ⟨rfl, rfl, rfl, rfl⟩⟩

/-- Frame lemma for updateParameters: the four constant-stage biquads are
untouched and the op-amp history cells are preserved. -/
theorem DistortionProcessor.updateParameters_frame (s : DistortionProcessor)
    (np : DistortionParameters) :
    (s.updateParameters np).bjt = s.bjt ∧
    (s.updateParameters np).rc = s.rc ∧
    (s.updateParameters np).toneLP = s.toneLP ∧
    (s.updateParameters np).toneHP = s.toneHP ∧
    (s.updateParameters np).opamp.x1 = s.opamp.x1 ∧
    (s.updateParameters np).opamp.x2 = s.opamp.x2 ∧
    (s.updateParameters np).opamp.y1 = s.opamp.y1 ∧
    (s.updateParameters np).opamp.y2 = s.opamp.y2 := by
  by_cases h : approximatelyEqual np.gain s.params.gain <;>
    simp [DistortionProcessor.updateParameters,
      DistortionProcessor.updateOpAmpFilter, calculateCoefficients,
      Biquad.setCoefficients, h]

/-- updateParameters preserves the zero-history invariant. -/
theorem DistortionProcessor.updateParameters_zeroHist {s : DistortionProcessor}
    (np : DistortionParameters) (h : s.zeroHist) :
    (s.updateParameters np).zeroHist := by
  obtain ⟨f1, f2, f3, f4, f5, f6, f7, f8⟩ := s.updateParameters_frame np
  obtain ⟨hb, ho, hr, hl, ht⟩ := h
  exact ⟨by rw [f1]; exact hb,
    ⟨by rw [f5]; exact ho.1, by rw [f6]; exact ho.2.1,
     by rw [f7]; exact ho.2.2.1, by rw [f8]; exact ho.2.2.2⟩,
    by rw [f2]; exact hr, by rw [f3]; exact hl, by rw [f4]; exact ht⟩

/-- A zero-history engine maps an all-zero channel to an all-zero channel
and stays zero-history. -/
theorem DistortionProcessor.processChannel_zero (s : DistortionProcessor)
    (h : s.zeroHist) (n : ℕ) :
    (s.processChannel (List.replicate n 0)).1 = List.replicate n 0 ∧
    (s.processChannel (List.replicate n 0)).2.zeroHist := by
  induction n generalizing s with
  | zero => exact ⟨rfl, h⟩
  | succ n ih =>
      obtain ⟨v, h2⟩ := DistortionProcessor.processSample_zero h
      obtain ⟨ihv, ihh⟩ := ih (s.processSample 0).2 h2
      constructor
      · rw [List.replicate_succ]
        simp only [DistortionProcessor.processChannel]
        rw [v, ihv]
      · rw [List.replicate_succ]
        simp only [DistortionProcessor.processChannel]
        exact ihh

/-- A zero-history engine maps an all-zero block to an all-zero block. -/
theorem DistortionProcessor.processBlock_zero (s : DistortionProcessor)
    (h : s.zeroHist) (m n : ℕ) :
    (s.processBlock (List.replicate m (List.replicate n 0))).1 =
      List.replicate m (List.replicate n 0) := by
  induction m generalizing s with
  | zero => rfl
  | succ m ih =>
      obtain ⟨cv, ch⟩ := s.processChannel_zero h n
      rw [List.replicate_succ]
      simp only [DistortionProcessor.processBlock]
      rw [cv, ih _ ch]

/-- C7: after prepare and one updateParameters call, an all-zero block of
any number of channels and any length comes out all-zero: no stage maps
zero input with zero history to a nonzero output (exactly, in this
real-arithmetic model, hence within the 1e-6 tolerance of the claim). -/
theorem silence_in_silence_out (e : DistortionProcessor) (r : ℝ)
    (p : DistortionParameters) (m n : ℕ) :
    (((e.prepare r).updateParameters p).processBlock
        (List.replicate m (List.replicate n 0))).1 =
      List.replicate m (List.replicate n 0) :=
  DistortionProcessor.processBlock_zero _
    (DistortionProcessor.updateParameters_zeroHist p (e.prepare_zeroHist r)) m n

/-! ## Observational agreement and idempotence of prepare -/

/-- Two engine states agree on everything the sample path reads: the
parameter snapshot and the five biquads. -/
def Agrees (s t : DistortionProcessor) : Prop :=
  s.params = t.params ∧ s.bjt = t.bjt ∧ s.opamp = t.opamp ∧
    s.rc = t.rc ∧ s.toneLP = t.toneLP ∧ s.toneHP = t.toneHP

/-- processSample respects the agreement relation: agreeing states produce
the same output sample and remain in agreement. -/
theorem processSample_congr (s t : DistortionProcessor) (x : ℝ) (h : Agrees s t) :
    (s.processSample x).1 = (t.processSample x).1 ∧
    Agrees (s.processSample x).2 (t.processSample x).2 := by
  obtain ⟨hp, h1, h2, h3, h4, h5⟩ := h
  simp only [DistortionProcessor.processSample, DistortionProcessor.processBJT,
    DistortionProcessor.processOpAmp, DistortionProcessor.processClipper,
    DistortionProcessor.processTone, Agrees]
  rw [hp, h1, h2, h3, h4, h5]
  exact ⟨rfl, rfl, rfl, rfl, rfl, rfl, rfl⟩

/-- processChannel respects the agreement relation sample by sample. -/
theorem processChannel_congr (s t : DistortionProcessor) (sig : List ℝ)
    (h : Agrees s t) :
    (s.processChannel sig).1 = (t.processChannel sig).1 := by
  induction sig generalizing s t with
  | nil => rfl
  | cons x xs ih =>
      obtain ⟨hv, hA⟩ := processSample_congr s t x h
      simp only [DistortionProcessor.processChannel]
      rw [hv, ih _ _ hA]

/-- calculateCoefficients applied to a freshly reset biquad overwrites all
five coefficients and leaves zero history, so the pre-reset state of the
filter is irrelevant. -/
theorem calcCoeff_reset_eq (b1 b2 : Biquad) (p : AnalogParameters) (sr : ℝ) :
    calculateCoefficients b1.reset p sr = calculateCoefficients b2.reset p sr := rfl

/-- C9: preparing twice at the same rate leaves the engine with the same
parameter snapshot, sample rate and five biquads (coefficients and
all-zero histories) as preparing a fresh engine that carries the same
stored parameters, so any subsequent signal produces identical output.
The hypotheses record the program invariant that the scratch
AnalogParameters fields which updateConstFilters never writes (A, B, D of
the RC and tone-low tables; A, C, D of the tone-high table) still hold
their zero initializers: no member function ever writes them. -/
theorem prepare_idempotent (e : DistortionProcessor) (r : ℝ)
    (hrcA : e.rcParams.A = 0) (hrcB : e.rcParams.B = 0) (hrcD : e.rcParams.D = 0)
    (hlpA : e.toneLpParams.A = 0) (hlpB : e.toneLpParams.B = 0)
    (hlpD : e.toneLpParams.D = 0)
    (hhpA : e.toneHpParams.A = 0) (hhpC : e.toneHpParams.C = 0)
    (hhpD : e.toneHpParams.D = 0) :
    ((e.prepare r).prepare r).bjt = ((freshEngine e.params).prepare r).bjt ∧
    ((e.prepare r).prepare r).opamp = ((freshEngine e.params).prepare r).opamp ∧
    ((e.prepare r).prepare r).rc = ((freshEngine e.params).prepare r).rc ∧
    ((e.prepare r).prepare r).toneLP = ((freshEngine e.params).prepare r).toneLP ∧
    ((e.prepare r).prepare r).toneHP = ((freshEngine e.params).prepare r).toneHP ∧
    ((e.prepare r).prepare r).params = ((freshEngine e.params).prepare r).params ∧
    ((e.prepare r).prepare r).sampleRate =
      ((freshEngine e.params).prepare r).sampleRate ∧
    ((e.prepare r).prepare r).zeroHist ∧
    ∀ signal : List ℝ,
      (((e.prepare r).prepare r).processChannel signal).1 =
        (((freshEngine e.params).prepare r).processChannel signal).1 := by
  have hrc : ((e.prepare r).prepare r).rc = ((freshEngine e.params).prepare r).rc := by
    have htab : rcTable ((e.prepare r).rcParams) =
        rcTable ((freshEngine e.params).rcParams) := by
      show rcTable (rcTable e.rcParams) = rcTable AnalogParameters.init
      simp [rcTable, AnalogParameters.init, hrcA, hrcB, hrcD]
    show calculateCoefficients ((e.prepare r).rc.reset)
          (rcTable ((e.prepare r).rcParams)) r =
        calculateCoefficients ((freshEngine e.params).rc.reset)
          (rcTable ((freshEngine e.params).rcParams)) r
    rw [htab]
    exact calcCoeff_reset_eq _ _ _ _
  have hlp : ((e.prepare r).prepare r).toneLP =
      ((freshEngine e.params).prepare r).toneLP := by
    have htab : toneLpTable ((e.prepare r).toneLpParams) =
        toneLpTable ((freshEngine e.params).toneLpParams) := by
      show toneLpTable (toneLpTable e.toneLpParams) =
        toneLpTable AnalogParameters.init
      simp [toneLpTable, AnalogParameters.init, hlpA, hlpB, hlpD]
    show calculateCoefficients ((e.prepare r).toneLP.reset)
          (toneLpTable ((e.prepare r).toneLpParams)) r =
        calculateCoefficients ((freshEngine e.params).toneLP.reset)
          (toneLpTable ((freshEngine e.params).toneLpParams)) r
    rw [htab]
    exact calcCoeff_reset_eq _ _ _ _
  have hhp : ((e.prepare r).prepare r).toneHP =
      ((freshEngine e.params).prepare r).toneHP := by
    have htab : toneHpTable ((e.prepare r).toneHpParams) =
        toneHpTable ((freshEngine e.params).toneHpParams) := by
      show toneHpTable (toneHpTable e.toneHpParams) =
        toneHpTable AnalogParameters.init
      simp [toneHpTable, AnalogParameters.init, hhpA, hhpC, hhpD]
    show calculateCoefficients ((e.prepare r).toneHP.reset)
          (toneHpTable ((e.prepare r).toneHpParams)) r =
        calculateCoefficients ((freshEngine e.params).toneHP.reset)
          (toneHpTable ((freshEngine e.params).toneHpParams)) r
    rw [htab]
    exact calcCoeff_reset_eq _ _ _ _
  refine ⟨rfl, rfl, hrc, hlp, hhp, rfl, rfl,
    DistortionProcessor.prepare_zeroHist _ r, ?_⟩
  intro signal
  exact processChannel_congr _ _ signal ⟨rfl, rfl, rfl, hrc, hlp, hhp⟩

/-- Witness for C9 on a fresh engine (whose scratch tables hold their zero
initializers) prepared twice at 48000. -/
theorem prepare_idempotent_witness :
    (freshEngine ⟨0.3, 0.6, 0.8⟩).rcParams.A = 0 ∧
    (((freshEngine ⟨0.3, 0.6, 0.8⟩).prepare 48000).prepare 48000).bjt =
      ((freshEngine (freshEngine ⟨0.3, 0.6, 0.8⟩).params).prepare 48000).bjt ∧
    (((freshEngine ⟨0.3, 0.6, 0.8⟩).prepare 48000).prepare 48000).zeroHist := by
  have h := prepare_idempotent (freshEngine ⟨0.3, 0.6, 0.8⟩) 48000
    rfl rfl rfl rfl rfl rfl rfl rfl rfl
  exact ⟨rfl, h.1, h.2.2.2.2.2.2.2.1⟩

end DistortionPlugin
